import Mathlib

/-!
Verification of the chatter-classification core of the Keyboard-chatter-blocker
repository.  The repository contains several near-identical variants of the
classifier; the ones relevant to the claims are embedded here:

* namespace KbChatterBlocker — src/KbChatterBlocker.cpp, the baseline variant
  with thresholds 85 / 30 / 150 ms;
* namespace FullVariant — src/unnamed/part_002, the full variant with the
  intentional double-tap override and thresholds 81 / 15 / 200 / 20 ms;
* namespace Adaptive — the AdaptiveChatterBlocker class of src/unnamed/part_001;
* namespace PatternBased — the PatternBasedChatterBlocker class of
  src/unnamed/part_001.

Timestamps are modelled as Int, matching the millisecond long long readings of
the C++ code (the Python code uses time.time() * 1000; the claims only involve
integer millisecond scenarios, and the one fractional operation, the average of
two inter-press intervals, is modelled exactly over the rationals).  The OS
glue (hooks, message loops, mutexes, logging) supplies each call with the key
code, the press/release flag and the current time; it is modelled by passing
the timestamp as an explicit argument.
-/

/-- The per-key state of the C++ variants (struct KeyState in
src/KbChatterBlocker.cpp and src/unnamed/part_002; both declare the identical
struct, so one Lean structure serves both). The value 0 of lastPressTime is
the unset sentinel of the default-constructed state. -/
structure KeyState where
  lastPressTime : Int := 0
  lastReleaseTime : Int := 0
  inRepeatMode : Bool := false
  blockedCount : Int := 0
deriving DecidableEq, Inhabited

namespace KbChatterBlocker

/-- Block everything faster than this (src/KbChatterBlocker.cpp line 6). -/
def CHATTER_THRESHOLD_MS : Int := 85

/-- Threshold when holding key (src/KbChatterBlocker.cpp line 7). -/
def REPEAT_CHATTER_THRESHOLD_MS : Int := 30

/-- Time to enter repeat mode (src/KbChatterBlocker.cpp line 8). -/
def REPEAT_TRANSITION_DELAY_MS : Int := 150

/-- ShouldBlockKey of src/KbChatterBlocker.cpp, lines 26-62, as a state
transformer on the state of one key: given the state of keyStates[vkCode],
the isKeyDown flag and the current time, it returns the block decision and
the updated state.  The pair p is the (threshold, state) outcome of the
mode-selection block of lines 39-47. -/
def ShouldBlockKey (state : KeyState) (isKeyDown : Bool) (currentTime : Int) :
    Bool × KeyState :=
  if isKeyDown then
    if state.lastPressTime = 0 then
      (false, { state with lastPressTime := currentTime })
    else
      let timeSincePress := currentTime - state.lastPressTime
      let p :=
        if state.inRepeatMode then
          (REPEAT_CHATTER_THRESHOLD_MS, state)
        else if timeSincePress > REPEAT_TRANSITION_DELAY_MS then
          (CHATTER_THRESHOLD_MS, { state with inRepeatMode := true })
        else
          (CHATTER_THRESHOLD_MS, state)
      if timeSincePress < p.1 then
        (true, { p.2 with blockedCount := p.2.blockedCount + 1 })
      else
        (false, { p.2 with lastPressTime := currentTime })
  else
    (false, { state with lastReleaseTime := currentTime, inRepeatMode := false })

/-- The process-wide table std::unordered_map keyed by virtual key code
(line 17).  operator[] default-constructs a missing entry, so the map is
modelled as a total function into KeyState with the default state standing
for absent keys. -/
def KeyStates : Type := Nat → KeyState

/-- One call of the classifier through the table: look up (or lazily create)
the state of vkCode, run ShouldBlockKey on it, and store back the updated
state.  All other entries of the table are untouched. -/
def evaluate (keyStates : KeyStates) (vkCode : Nat) (isKeyDown : Bool)
    (currentTime : Int) : Bool × KeyStates :=
  let r := ShouldBlockKey (keyStates vkCode) isKeyDown currentTime
  (r.1, fun k => if k = vkCode then r.2 else keyStates k)

/-- An event as delivered by the hook layer: key code, press flag, timestamp. -/
structure Event where
  vkCode : Nat
  isPress : Bool
  timestamp : Int

/-- Run a sequence of events through the table and collect, in order, the
block decisions of the events of key B. -/
def decisionsFor (B : Nat) (keyStates : KeyStates) : List Event → List Bool
  | [] => []
  | e :: es =>
    let r := evaluate keyStates e.vkCode e.isPress e.timestamp
    if e.vkCode = B then r.1 :: decisionsFor B r.2 es
    else decisionsFor B r.2 es

/-- Run a sequence of press events for one key through ShouldBlockKey,
collecting the block decisions and the final state. -/
def runPressDecisions (state : KeyState) : List Int → List Bool × KeyState
  | [] => ([], state)
  | t :: ts =>
    let r := ShouldBlockKey state true t
    let rest := runPressDecisions r.2 ts
    (r.1 :: rest.1, rest.2)

end KbChatterBlocker

namespace FullVariant

/-- Strict threshold for first repeat (src/unnamed/part_002 line 7). -/
def INITIAL_CHATTER_THRESHOLD_MS : Int := 81

/-- Lenient threshold for subsequent repeats (src/unnamed/part_002 line 8). -/
def REPEAT_CHATTER_THRESHOLD_MS : Int := 15

/-- Time to switch to repeat mode (src/unnamed/part_002 line 9). -/
def REPEAT_TRANSITION_DELAY_MS : Int := 200

/-- Minimum time key must be released to be intentional
(src/unnamed/part_002 line 10). -/
def MIN_RELEASE_DURATION_MS : Int := 20

/-- ShouldBlockKey of src/unnamed/part_002, lines 43-96: like the baseline
variant but with the intentional double-tap check of lines 58-66 before the
threshold logic. -/
def ShouldBlockKey (state : KeyState) (isKeyDown : Bool) (currentTime : Int) :
    Bool × KeyState :=
  if isKeyDown then
    if state.lastPressTime = 0 then
      (false, { state with lastPressTime := currentTime })
    else
      let timeSincePress := currentTime - state.lastPressTime
      let timeSinceRelease := currentTime - state.lastReleaseTime
      if state.lastReleaseTime > state.lastPressTime ∧
          timeSinceRelease ≥ MIN_RELEASE_DURATION_MS then
        (false, { state with lastPressTime := currentTime, inRepeatMode := false })
      else
        let p :=
          if state.inRepeatMode then
            (REPEAT_CHATTER_THRESHOLD_MS, state)
          else if timeSincePress > REPEAT_TRANSITION_DELAY_MS then
            (INITIAL_CHATTER_THRESHOLD_MS, { state with inRepeatMode := true })
          else
            (INITIAL_CHATTER_THRESHOLD_MS, state)
        if timeSincePress < p.1 then
          (true, { p.2 with blockedCount := p.2.blockedCount + 1 })
        else
          (false, { p.2 with lastPressTime := currentTime })
  else
    (false, { state with lastReleaseTime := currentTime, inRepeatMode := false })

end FullVariant

namespace Adaptive

/-- The per-key fields of AdaptiveChatterBlocker in src/unnamed/part_001
(defaultdict entries for one key; the defaults are 0 / 0 / False / 0). -/
structure AdaptiveKeyState where
  last_press_time : Int := 0
  last_release_time : Int := 0
  in_repeat_mode : Bool := false
  blocked_count : Int := 0
deriving DecidableEq, Inhabited

/-- on_release of AdaptiveChatterBlocker (src/unnamed/part_001 lines 67-75),
restricted to its effect on the state of the released key: record the current
time as the last release time and reset repeat mode.  No event is ever
suppressed on release. -/
def on_release (state : AdaptiveKeyState) (current_time : Int) :
    AdaptiveKeyState :=
  { state with last_release_time := current_time, in_repeat_mode := false }

end Adaptive

namespace PatternBased

/-- Number of recent presses to analyze (src/unnamed/part_001 line 110). -/
def history_size : Nat := 5

/-- The history update of src/unnamed/part_001 lines 144-147: append the
current time and drop the oldest entry when the history exceeds
history_size. -/
def pushHistory (history : List Int) (current_time : Int) : List Int :=
  let h := history ++ [current_time]
  if h.length > history_size then h.drop 1 else h

/-- should_block_key of PatternBasedChatterBlocker (src/unnamed/part_001
lines 112-149), acting on the press history of one key (most recent press
last, as in the Python list).  Matching on the reversed history exposes the
last, second-to-last and third-to-last entries; the pattern branch is reached
exactly when the history has at least 3 entries, as in line 133.  The average
of the two most recent inter-press intervals is computed over the rationals,
matching the exact Python float arithmetic on these values. -/
def should_block_key (history : List Int) (current_time : Int) :
    Bool × List Int :=
  match history.reverse with
  | [] =>
    (false, pushHistory history current_time)
  | last :: rest =>
    let time_since_last := current_time - last
    if time_since_last < 20 then
      (true, history)
    else
      match rest with
      | secondLast :: thirdLast :: _ =>
        let avg_interval : ℚ :=
          (((secondLast - thirdLast : Int) : ℚ) + ((last - secondLast : Int) : ℚ)) / 2
        if time_since_last < 40 ∧
            |((time_since_last : Int) : ℚ) - avg_interval| > 20 then
          (true, history)
        else
          (false, pushHistory history current_time)
      | _ =>
        (false, pushHistory history current_time)

end PatternBased

namespace KbChatterBlocker

/-- A press on a key with the unset sentinel press time is recorded and
passed. -/
theorem press_fresh (st : KeyState) (t : Int) (h : st.lastPressTime = 0) :
    ShouldBlockKey st true t = (false, { st with lastPressTime := t }) := by
  simp [ShouldBlockKey, h]

/-- A press under the initial threshold on a key with history, not in repeat
mode, is blocked and only the blocked counter changes. -/
theorem press_init_block (st : KeyState) (t : Int) (h0 : st.lastPressTime ≠ 0)
    (hm : st.inRepeatMode = false)
    (hlt : t - st.lastPressTime < CHATTER_THRESHOLD_MS) :
    ShouldBlockKey st true t =
      (true, { st with blockedCount := st.blockedCount + 1 }) := by
  have hnd : ¬ (t - st.lastPressTime > REPEAT_TRANSITION_DELAY_MS) := by
    simp only [CHATTER_THRESHOLD_MS] at hlt
    simp only [REPEAT_TRANSITION_DELAY_MS]
    omega
  simp [ShouldBlockKey, h0, hm, hnd, hlt]

/-- A press at or above the initial threshold but at most the transition
delay, not in repeat mode: passed, press time updated, repeat mode still
off. -/
theorem press_init_pass (st : KeyState) (t : Int) (h0 : st.lastPressTime ≠ 0)
    (hm : st.inRepeatMode = false)
    (hge : CHATTER_THRESHOLD_MS ≤ t - st.lastPressTime)
    (hnd : ¬ (t - st.lastPressTime > REPEAT_TRANSITION_DELAY_MS)) :
    ShouldBlockKey st true t = (false, { st with lastPressTime := t }) := by
  simp [ShouldBlockKey, h0, hm, hnd, not_lt.mpr hge]

/-- A press beyond the transition delay, not in repeat mode: passed, press
time updated, repeat mode turned on. -/
theorem press_init_flip (st : KeyState) (t : Int) (h0 : st.lastPressTime ≠ 0)
    (hm : st.inRepeatMode = false)
    (hd : t - st.lastPressTime > REPEAT_TRANSITION_DELAY_MS) :
    ShouldBlockKey st true t =
      (false, { st with lastPressTime := t, inRepeatMode := true }) := by
  have hge : ¬ (t - st.lastPressTime < CHATTER_THRESHOLD_MS) := by
    simp only [REPEAT_TRANSITION_DELAY_MS] at hd
    simp only [CHATTER_THRESHOLD_MS]
    omega
  simp [ShouldBlockKey, h0, hm, hd, hge]

/-- A press under the repeat threshold on a key in repeat mode is blocked and
only the blocked counter changes. -/
theorem press_repeat_block (st : KeyState) (t : Int) (h0 : st.lastPressTime ≠ 0)
    (hm : st.inRepeatMode = true)
    (hlt : t - st.lastPressTime < REPEAT_CHATTER_THRESHOLD_MS) :
    ShouldBlockKey st true t =
      (true, { st with blockedCount := st.blockedCount + 1 }) := by
  simp [ShouldBlockKey, h0, hm, hlt]

/-- A press at or above the repeat threshold on a key in repeat mode is
passed and the press time is updated. -/
theorem press_repeat_pass (st : KeyState) (t : Int) (h0 : st.lastPressTime ≠ 0)
    (hm : st.inRepeatMode = true)
    (hge : REPEAT_CHATTER_THRESHOLD_MS ≤ t - st.lastPressTime) :
    ShouldBlockKey st true t = (false, { st with lastPressTime := t }) := by
  simp [ShouldBlockKey, h0, hm, not_lt.mpr hge]

/-- A release records the release time, clears repeat mode and passes. -/
theorem release_eq (st : KeyState) (t : Int) :
    ShouldBlockKey st false t =
      (false, { st with lastReleaseTime := t, inRepeatMode := false }) := by
  simp [ShouldBlockKey]

end KbChatterBlocker

/-- Claim C4: threshold boundary.  For a key with last accepted press at a
nonzero t0 and not in repeat mode, a press at exactly t0 + 85 is accepted
while a press at t0 + 84 is blocked: the block condition is the strict
comparison dtPress < threshold. -/
theorem c4_threshold_boundary (st : KeyState) (t0 : Int)
    (h0 : st.lastPressTime = t0) (hne : t0 ≠ 0)
    (hm : st.inRepeatMode = false) :
    (KbChatterBlocker.ShouldBlockKey st true (t0 + 85)).1 = false ∧
    (KbChatterBlocker.ShouldBlockKey st true (t0 + 84)).1 = true := by
  constructor
  · rw [KbChatterBlocker.press_init_pass st (t0 + 85) (by rw [h0]; exact hne) hm
      (by rw [h0]; simp only [KbChatterBlocker.CHATTER_THRESHOLD_MS]; omega)
      (by rw [h0]; simp only [KbChatterBlocker.REPEAT_TRANSITION_DELAY_MS]; omega)]
  · rw [KbChatterBlocker.press_init_block st (t0 + 84) (by rw [h0]; exact hne) hm
      (by rw [h0]; simp only [KbChatterBlocker.CHATTER_THRESHOLD_MS]; omega)]

/-- Witness for C4 at the concrete state of a key last accepted at 100. -/
theorem c4_threshold_boundary_witness :
    (KbChatterBlocker.ShouldBlockKey ⟨100, 0, false, 0⟩ true 185).1 = false ∧
    (KbChatterBlocker.ShouldBlockKey ⟨100, 0, false, 0⟩ true 184).1 = true :=
  c4_threshold_boundary ⟨100, 0, false, 0⟩ 100 rfl (by decide) rfl

/-- Claim C6: first press always passes.  In both C++ variants, a press on a
key whose lastPressTime is still the unset sentinel is never blocked, for any
timestamp, and the timestamp is recorded as lastPressTime. -/
theorem c6_first_press_passes (st : KeyState) (t : Int)
    (h : st.lastPressTime = 0) :
    KbChatterBlocker.ShouldBlockKey st true t =
      (false, { st with lastPressTime := t }) ∧
    FullVariant.ShouldBlockKey st true t =
      (false, { st with lastPressTime := t }) :=
  ⟨KbChatterBlocker.press_fresh st t h, by simp [FullVariant.ShouldBlockKey, h]⟩

/-- Witness for C6 on a fresh key at timestamp 42. -/
theorem c6_first_press_passes_witness :
    KbChatterBlocker.ShouldBlockKey ⟨0, 0, false, 0⟩ true 42 =
      (false, ⟨42, 0, false, 0⟩) ∧
    FullVariant.ShouldBlockKey ⟨0, 0, false, 0⟩ true 42 =
      (false, ⟨42, 0, false, 0⟩) :=
  c6_first_press_passes ⟨0, 0, false, 0⟩ 42 rfl

/-- Claim C5: release behaviour.  In every state and at every timestamp, a
release records the timestamp into lastReleaseTime, forces inRepeatMode to
false and passes, in the baseline variant, the full variant and the adaptive
Python variant alike. -/
theorem c5_release_behaviour (st : KeyState)
    (ast : Adaptive.AdaptiveKeyState) (t : Int) :
    KbChatterBlocker.ShouldBlockKey st false t =
      (false, { st with lastReleaseTime := t, inRepeatMode := false }) ∧
    FullVariant.ShouldBlockKey st false t =
      (false, { st with lastReleaseTime := t, inRepeatMode := false }) ∧
    Adaptive.on_release ast t =
      { ast with last_release_time := t, in_repeat_mode := false } :=
  ⟨KbChatterBlocker.release_eq st t, by simp [FullVariant.ShouldBlockKey], rfl⟩

/-- Claim C7, counterexample: a press whose timestamp 50 is earlier than the
stored lastPressTime 100 is blocked by the code, not passed as the claim
states. -/
theorem c7_counterexample :
    ((50 : Int) < (⟨100, 0, false, 0⟩ : KeyState).lastPressTime) ∧
    KbChatterBlocker.ShouldBlockKey ⟨100, 0, false, 0⟩ true 50 =
      (true, ⟨100, 0, false, 1⟩) := by decide

/-- Claim C7, amended: a press whose timestamp is earlier than the stored
nonzero lastPressTime is always blocked, since the negative dtPress is below
both thresholds; the clamp-to-zero-and-pass handling recommended by the spec
is not implemented. -/
theorem c7_negative_dt_blocked (st : KeyState) (t : Int)
    (h0 : st.lastPressTime ≠ 0) (hlt : t < st.lastPressTime) :
    KbChatterBlocker.ShouldBlockKey st true t =
      (true, { st with blockedCount := st.blockedCount + 1 }) := by
  by_cases hm : st.inRepeatMode = true
  · exact KbChatterBlocker.press_repeat_block st t h0 hm
      (by simp only [KbChatterBlocker.REPEAT_CHATTER_THRESHOLD_MS]; omega)
  · rw [Bool.not_eq_true] at hm
    exact KbChatterBlocker.press_init_block st t h0 hm
      (by simp only [KbChatterBlocker.CHATTER_THRESHOLD_MS]; omega)

/-- Witness for the amended C7 at a concrete out-of-order press. -/
theorem c7_negative_dt_blocked_witness :
    KbChatterBlocker.ShouldBlockKey ⟨200, 0, true, 0⟩ true 120 =
      (true, ⟨200, 0, true, 1⟩) :=
  c7_negative_dt_blocked ⟨200, 0, true, 0⟩ 120 (by decide) (by decide)

/-- Claim C10: sentinel aliasing at timestamp 0.  In both C++ variants a
first press at timestamp 0 is accepted but leaves the state equal to the
default state, whose lastPressTime is still the unset sentinel 0; hence the
immediately following press is also accepted for every timestamp, however
small the gap, and becomes the new reference point. -/
theorem c10_sentinel_aliasing :
    KbChatterBlocker.ShouldBlockKey ⟨0, 0, false, 0⟩ true 0 =
      (false, ⟨0, 0, false, 0⟩) ∧
    (∀ t : Int, KbChatterBlocker.ShouldBlockKey ⟨0, 0, false, 0⟩ true t =
      (false, ⟨t, 0, false, 0⟩)) ∧
    FullVariant.ShouldBlockKey ⟨0, 0, false, 0⟩ true 0 =
      (false, ⟨0, 0, false, 0⟩) ∧
    (∀ t : Int, FullVariant.ShouldBlockKey ⟨0, 0, false, 0⟩ true t =
      (false, ⟨t, 0, false, 0⟩)) :=
  ⟨by decide,
   fun t => KbChatterBlocker.press_fresh ⟨0, 0, false, 0⟩ t rfl,
   by decide,
   fun t => by simp [FullVariant.ShouldBlockKey]⟩

/-- Claim C2: repeat-mode transition with the baseline constants 85 / 30 /
150.  From a state whose last accepted press is a positive t0, a press at
t0 + 151 is accepted and leaves the key in repeat mode (the transition test
uses dtPress measured from the previous accepted lastPressTime, before it is
updated); the following press 20 ms later is blocked because 20 < 30, leaving
lastPressTime at t0 + 151; a press 31 ms after t0 + 151 is accepted. -/
theorem c2_repeat_mode_transition (st : KeyState) (t0 : Int)
    (h0 : st.lastPressTime = t0) (hpos : 0 < t0) :
    KbChatterBlocker.ShouldBlockKey st true (t0 + 151) =
      (false, { st with lastPressTime := t0 + 151, inRepeatMode := true }) ∧
    KbChatterBlocker.ShouldBlockKey
        { st with lastPressTime := t0 + 151, inRepeatMode := true }
        true (t0 + 151 + 20) =
      (true, { st with
                lastPressTime := t0 + 151
                inRepeatMode := true
                blockedCount := st.blockedCount + 1 }) ∧
    KbChatterBlocker.ShouldBlockKey
        { st with
          lastPressTime := t0 + 151
          inRepeatMode := true
          blockedCount := st.blockedCount + 1 }
        true (t0 + 151 + 31) =
      (false, { st with
                lastPressTime := t0 + 151 + 31
                inRepeatMode := true
                blockedCount := st.blockedCount + 1 }) := by
  obtain ⟨lp, lr, rm, bc⟩ := st
  dsimp only at h0
  subst h0
  refine ⟨?_, ?_, ?_⟩
  · cases rm
    · exact KbChatterBlocker.press_init_flip ⟨lp, lr, false, bc⟩ (lp + 151)
        (show lp ≠ 0 by omega) rfl
        (show lp + 151 - lp > KbChatterBlocker.REPEAT_TRANSITION_DELAY_MS by
          simp only [KbChatterBlocker.REPEAT_TRANSITION_DELAY_MS]; omega)
    · exact KbChatterBlocker.press_repeat_pass ⟨lp, lr, true, bc⟩ (lp + 151)
        (show lp ≠ 0 by omega) rfl
        (show KbChatterBlocker.REPEAT_CHATTER_THRESHOLD_MS ≤ lp + 151 - lp by
          simp only [KbChatterBlocker.REPEAT_CHATTER_THRESHOLD_MS]; omega)
  · exact KbChatterBlocker.press_repeat_block ⟨lp + 151, lr, true, bc⟩
      (lp + 151 + 20) (show lp + 151 ≠ 0 by omega) rfl
      (show lp + 151 + 20 - (lp + 151) < KbChatterBlocker.REPEAT_CHATTER_THRESHOLD_MS by
        simp only [KbChatterBlocker.REPEAT_CHATTER_THRESHOLD_MS]; omega)
  · exact KbChatterBlocker.press_repeat_pass ⟨lp + 151, lr, true, bc + 1⟩
      (lp + 151 + 31) (show lp + 151 ≠ 0 by omega) rfl
      (show KbChatterBlocker.REPEAT_CHATTER_THRESHOLD_MS ≤ lp + 151 + 31 - (lp + 151) by
        simp only [KbChatterBlocker.REPEAT_CHATTER_THRESHOLD_MS]; omega)

/-- Witness for C2 with the last accepted press at 100: presses at 251, 271
and 282 give pass, block, pass, and repeat mode is on after the first. -/
theorem c2_repeat_mode_transition_witness :
    KbChatterBlocker.ShouldBlockKey ⟨100, 0, false, 0⟩ true 251 =
      (false, ⟨251, 0, true, 0⟩) ∧
    KbChatterBlocker.ShouldBlockKey ⟨251, 0, true, 0⟩ true 271 =
      (true, ⟨251, 0, true, 1⟩) ∧
    KbChatterBlocker.ShouldBlockKey ⟨251, 0, true, 1⟩ true 282 =
      (false, ⟨282, 0, true, 1⟩) := by
  simpa using c2_repeat_mode_transition ⟨100, 0, false, 0⟩ 100 rfl (by decide)

/-- Claim C3: intentional double-tap override in the full variant.  On a
press for a key with a recorded press (nonzero lastPressTime), if the key was
released after the last press and at least MIN_RELEASE_DURATION_MS = 20 ms
have elapsed since that release, the press is passed unconditionally, the
threshold comparison is skipped, lastPressTime is set to the timestamp and
inRepeatMode is cleared. -/
theorem c3_double_tap_override (st : KeyState) (t : Int)
    (h0 : st.lastPressTime ≠ 0)
    (h1 : st.lastReleaseTime > st.lastPressTime)
    (h2 : t - st.lastReleaseTime ≥ FullVariant.MIN_RELEASE_DURATION_MS) :
    FullVariant.ShouldBlockKey st true t =
      (false, { st with lastPressTime := t, inRepeatMode := false }) := by
  simp [FullVariant.ShouldBlockKey, h0, h1, h2]

/-- Witness for C3: press at 100, release at 110, press at 130 — the third
event is accepted although its press gap 30 is under the initial threshold,
because the release-to-press gap is 20. -/
theorem c3_double_tap_override_witness :
    FullVariant.ShouldBlockKey
        ((FullVariant.ShouldBlockKey
          ((FullVariant.ShouldBlockKey ⟨0, 0, false, 0⟩ true 100).2)
          false 110).2)
        true 130 =
      (false, ⟨130, 110, false, 0⟩) := by
  have hst : ((FullVariant.ShouldBlockKey
      ((FullVariant.ShouldBlockKey ⟨0, 0, false, 0⟩ true 100).2)
      false 110).2) = ⟨100, 110, false, 0⟩ := by decide
  rw [hst]
  exact c3_double_tap_override ⟨100, 110, false, 0⟩ 130
    (by decide) (by decide) (by decide)

namespace KbChatterBlocker

/-- Every press of a burst measured from a fixed accepted press time t0 and
strictly under the initial threshold is blocked, the reference point t0 is
kept, repeat mode stays off, and only the blocked counter grows. -/
theorem run_burst_blocked (t0 : Int) (hne : t0 ≠ 0) :
    ∀ (ts : List Int) (st : KeyState), st.lastPressTime = t0 →
      st.inRepeatMode = false →
      (∀ t ∈ ts, t - t0 < CHATTER_THRESHOLD_MS) →
      runPressDecisions st ts =
        (List.replicate ts.length true,
         { st with blockedCount := st.blockedCount + (ts.length : Int) }) := by
  intro ts
  induction ts with
  | nil =>
    intro st h0 hm _
    simp [runPressDecisions]
  | cons t ts ih =>
    intro st h0 hm hall
    have e := press_init_block st t (by rw [h0]; exact hne) hm
      (by rw [h0]; exact hall t (List.mem_cons_self t ts))
    have ih2 := ih { st with blockedCount := st.blockedCount + 1 }
      h0 hm (fun u hu => hall u (List.mem_cons_of_mem t hu))
    simp only [runPressDecisions, e, ih2, List.length_cons, List.replicate_succ,
      Prod.mk.injEq, KeyState.mk.injEq, true_and, and_true]
    push_cast
    ring

end KbChatterBlocker

/-- Claim C1, counterexample: a key in repeat mode with last accepted press
at 160 (reachable by presses at 1 and 160) receives a press at 210, whose
dtPress = 50 is strictly under the initial threshold 85; the claim says the
press is blocked with lastPressTime kept at 160, but the code compares
against the repeat threshold 30 and passes it, moving lastPressTime to
210. -/
theorem c1_counterexample :
    ((210 : Int) - (⟨160, 0, true, 0⟩ : KeyState).lastPressTime <
      KbChatterBlocker.CHATTER_THRESHOLD_MS) ∧
    KbChatterBlocker.ShouldBlockKey ⟨160, 0, true, 0⟩ true 210 =
      (false, ⟨210, 0, true, 0⟩) := by decide

/-- Claim C1, amended: burst absorption holds for a key that is not in
repeat mode and whose last accepted press time t0 is nonzero.  Every press
with dtPress strictly under the initial threshold is then blocked, with only
blockedCount incremented and lastPressTime left at t0; in particular the
whole burst at t0 + 1, ..., t0 + k with k < 85 is blocked with lastPressTime
equal to t0 throughout. -/
theorem c1_burst_absorption (st : KeyState) (t0 : Int)
    (h0 : st.lastPressTime = t0) (hne : t0 ≠ 0)
    (hm : st.inRepeatMode = false) :
    (∀ t : Int, t - t0 < KbChatterBlocker.CHATTER_THRESHOLD_MS →
      KbChatterBlocker.ShouldBlockKey st true t =
        (true, { st with blockedCount := st.blockedCount + 1 })) ∧
    (∀ k : Nat, (k : Int) < KbChatterBlocker.CHATTER_THRESHOLD_MS →
      KbChatterBlocker.runPressDecisions st
          ((List.range k).map fun (i : Nat) => t0 + (i : Int) + 1) =
        (List.replicate k true,
         { st with blockedCount := st.blockedCount + (k : Int) })) := by
  constructor
  · intro t ht
    exact KbChatterBlocker.press_init_block st t (by rw [h0]; exact hne) hm
      (by rw [h0]; exact ht)
  · intro k hk
    have hall : ∀ t ∈ (List.range k).map (fun (i : Nat) => t0 + (i : Int) + 1),
        t - t0 < KbChatterBlocker.CHATTER_THRESHOLD_MS := by
      intro t htmem
      simp only [List.mem_map, List.mem_range] at htmem
      obtain ⟨i, hi, rfl⟩ := htmem
      simp only [KbChatterBlocker.CHATTER_THRESHOLD_MS] at hk ⊢
      omega
    rw [KbChatterBlocker.run_burst_blocked t0 hne _ st h0 hm hall]
    simp [List.length_map, List.length_range]

/-- Witness for the amended C1 with last accepted press at 100: a press at
150 (dtPress 50 < 85) is blocked, and a burst at 101, 102, 103 is entirely
blocked with lastPressTime still 100. -/
theorem c1_burst_absorption_witness :
    KbChatterBlocker.ShouldBlockKey ⟨100, 0, false, 0⟩ true 150 =
      (true, ⟨100, 0, false, 1⟩) ∧
    KbChatterBlocker.runPressDecisions ⟨100, 0, false, 0⟩
        ((List.range 3).map fun (i : Nat) => 100 + (i : Int) + 1) =
      (List.replicate 3 true, ⟨100, 0, false, 3⟩) := by
  have h := c1_burst_absorption ⟨100, 0, false, 0⟩ 100 rfl (by decide) rfl
  exact ⟨h.1 150 (by decide), h.2 3 (by decide)⟩

namespace KbChatterBlocker

/-- The decisions collected for key B depend only on the entry of B in the
state table. -/
theorem decisionsFor_congr (B : Nat) :
    ∀ (es : List Event) (tbl1 tbl2 : KeyStates), tbl1 B = tbl2 B →
      decisionsFor B tbl1 es = decisionsFor B tbl2 es := by
  intro es
  induction es with
  | nil => intro tbl1 tbl2 _; rfl
  | cons e es ih =>
    intro tbl1 tbl2 hB
    by_cases hk : e.vkCode = B
    · subst hk
      simp only [decisionsFor, evaluate, hB]
      rw [if_pos trivial, if_pos trivial]
      refine congrArg (List.cons _) (ih _ _ ?_)
      change (if e.vkCode = e.vkCode then _ else tbl1 e.vkCode) =
        (if e.vkCode = e.vkCode then _ else tbl2 e.vkCode)
      rw [if_pos rfl, if_pos rfl]
    · simp only [decisionsFor, evaluate]
      rw [if_neg hk, if_neg hk]
      refine ih _ _ ?_
      change (if B = e.vkCode then _ else tbl1 B) =
        (if B = e.vkCode then _ else tbl2 B)
      rw [if_neg (fun h => hk h.symm), if_neg (fun h => hk h.symm)]
      exact hB

end KbChatterBlocker

/-- Claim C8: independence across keys.  Evaluating an event of key A leaves
the table entry of every other key B untouched, and the decisions produced
for the events of key B in any event sequence are exactly those produced by
the subsequence of events of key B alone, so inserting or removing events of
other keys anywhere leaves every decision for B unchanged. -/
theorem c8_key_independence (tbl : KbChatterBlocker.KeyStates) (B : Nat) :
    (∀ (A : Nat) (p : Bool) (t : Int), A ≠ B →
      (KbChatterBlocker.evaluate tbl A p t).2 B = tbl B) ∧
    (∀ es : List KbChatterBlocker.Event,
      KbChatterBlocker.decisionsFor B tbl es =
        KbChatterBlocker.decisionsFor B tbl
          (es.filter fun e => e.vkCode == B)) := by
  constructor
  · intro A p t hAB
    change (if B = A then _ else tbl B) = tbl B
    rw [if_neg (fun h => hAB h.symm)]
  · intro es
    induction es generalizing tbl with
    | nil => rfl
    | cons e es ih =>
      by_cases hk : e.vkCode = B
      · have hfil : (e :: es).filter (fun e => e.vkCode == B) =
            e :: es.filter (fun e => e.vkCode == B) := by
          simp [List.filter_cons, hk]
        rw [hfil]
        simp only [KbChatterBlocker.decisionsFor]
        rw [if_pos hk, if_pos hk]
        exact congrArg (List.cons _) (ih _)
      · have hfil : (e :: es).filter (fun e => e.vkCode == B) =
            es.filter (fun e => e.vkCode == B) := by
          simp [List.filter_cons, hk]
        rw [hfil]
        simp only [KbChatterBlocker.decisionsFor]
        rw [if_neg hk]
        have hupd :
            (KbChatterBlocker.evaluate tbl e.vkCode e.isPress e.timestamp).2 B =
              tbl B := by
          change (if B = e.vkCode then _ else tbl B) = tbl B
          rw [if_neg (fun h => hk h.symm)]
        rw [KbChatterBlocker.decisionsFor_congr B es _ tbl hupd]
        exact ih tbl

/-- Witness for C8: with the default table, a press of key 0 leaves the
entry of key 1 untouched, and the decisions for key 1 in a mixed sequence
match those of the filtered sequence. -/
theorem c8_key_independence_witness :
    (KbChatterBlocker.evaluate (fun _ => default) 0 true 5).2 1 = default ∧
    KbChatterBlocker.decisionsFor 1 (fun _ => default)
        [⟨0, true, 5⟩, ⟨1, true, 7⟩, ⟨0, true, 9⟩, ⟨1, true, 11⟩] =
      KbChatterBlocker.decisionsFor 1 (fun _ => default)
        ([⟨0, true, 5⟩, ⟨1, true, 7⟩, ⟨0, true, 9⟩,
          ⟨1, true, 11⟩].filter fun e => e.vkCode == 1) := by
  have h := c8_key_independence (fun _ => default) 1
  exact ⟨h.1 0 true 5 (by decide), h.2 _⟩

/-- Claim C9: the pattern-based classifier rule.  With a nonempty history, a
press whose gap since the last recorded press is under the absolute floor 20
is blocked unconditionally with the history unchanged; otherwise, with at
least 3 presses in history, the press is blocked exactly when the gap is
under the secondary floor 40 and deviates from the average of the last two
inter-press intervals by more than the tolerance 20 (blocked presses leave
the history unchanged, passed presses append their timestamp); in the
remaining cases — empty history, or a gap at or above the floor with fewer
than 3 recorded presses — the press passes and its timestamp is appended. -/
theorem c9_pattern_based_rule (history : List Int) (t : Int) :
    (history = [] →
      PatternBased.should_block_key history t = (false, [t])) ∧
    (∀ last rest, history.reverse = last :: rest → t - last < 20 →
      PatternBased.should_block_key history t = (true, history)) ∧
    (∀ last h2 h3 rest, history.reverse = last :: h2 :: h3 :: rest →
      20 ≤ t - last →
      ((t - last < 40 ∧
          20 < |((t - last : Int) : ℚ) -
            (((h2 - h3 : Int) : ℚ) + ((last - h2 : Int) : ℚ)) / 2| →
        PatternBased.should_block_key history t = (true, history)) ∧
       (¬ (t - last < 40 ∧
          20 < |((t - last : Int) : ℚ) -
            (((h2 - h3 : Int) : ℚ) + ((last - h2 : Int) : ℚ)) / 2|) →
        PatternBased.should_block_key history t =
          (false, PatternBased.pushHistory history t)))) ∧
    (∀ last rest, history.reverse = last :: rest → rest.length < 2 →
      20 ≤ t - last →
      PatternBased.should_block_key history t =
        (false, PatternBased.pushHistory history t)) := by
  refine ⟨?_, ?_, ?_, ?_⟩
  · intro h
    subst h
    rfl
  · intro last rest hrev hlt
    unfold PatternBased.should_block_key
    rw [hrev]
    dsimp only
    rw [if_pos hlt]
  · intro last h2 h3 rest hrev hge
    unfold PatternBased.should_block_key
    rw [hrev]
    dsimp only
    rw [if_neg (not_lt.mpr hge)]
    constructor
    · intro hc
      rw [if_pos hc]
    · intro hc
      rw [if_neg hc]
  · intro last rest hrev hlen hge
    rcases rest with _ | ⟨a, rest2⟩
    · unfold PatternBased.should_block_key
      rw [hrev]
      dsimp only
      rw [if_neg (not_lt.mpr hge)]
    · rcases rest2 with _ | ⟨b, r⟩
      · unfold PatternBased.should_block_key
        rw [hrev]
        dsimp only
        rw [if_neg (not_lt.mpr hge)]
      · exfalso
        simp only [List.length_cons] at hlen
        omega

/-- Witness for C9: with history 100 a press at 110 (gap 10 under the floor)
is blocked; with history 0, 100, 200 a press at 225 (gap 25, average
interval 100, deviation 75) is blocked by the pattern test; with history
0, 33, 60 a press at 95 (gap 35, average interval 30, deviation 5) passes
and is appended. -/
theorem c9_pattern_based_rule_witness :
    PatternBased.should_block_key [100] 110 = (true, [100]) ∧
    PatternBased.should_block_key [0, 100, 200] 225 = (true, [0, 100, 200]) ∧
    PatternBased.should_block_key [0, 33, 60] 95 = (false, [0, 33, 60, 95]) := by
  have h1 := c9_pattern_based_rule [100] 110
  have h2 := c9_pattern_based_rule [0, 100, 200] 225
  have h3 := c9_pattern_based_rule [0, 33, 60] 95
  refine ⟨h1.2.1 100 [] (by decide) (by decide), ?_, ?_⟩
  · refine (h2.2.2.1 200 100 0 [] (by decide) (by decide)).1 ⟨by decide, ?_⟩
    rw [lt_abs]
    right
    norm_num
  · refine (h3.2.2.1 60 33 0 [] (by decide) (by decide)).2 ?_
    rintro ⟨-, habs⟩
    rw [lt_abs] at habs
    rcases habs with h | h <;> norm_num at h
